import Mathlib

set_option maxRecDepth 16384

/-!
Verification of the FitTrack AI-planner core
(`src/core/ai_planner.py`, function `generate_fitness_plan_from_profile`).

The function is embedded shallowly:

* `UserProfile` models the profile object consumed by the planner.  Each
  enum-valued field carries both its stored code (`Option String`, with
  `none`/`""` falsy, as in Python) and the human-readable display label
  returned by the Django `get_<field>_display()` accessor (those accessors
  live outside this repository's sources, so the label is an arbitrary
  oracle field of the structure).  Numeric fields are modelled as
  `Option Int`, with `none`/`0` falsy.
* `World` models the external environment: the `GEMINI_API_KEY`
  configuration value, the outcome of constructing a generative model for a
  given model identifier, and the outcome of the generation call.
* Python exceptions are modelled by `PyError`; `isValueError` records
  whether the exception would be caught by the `except ValueError` clause.
* `generateRun` is the state-passing embedding of the function: it returns
  the result text, the log of generation-service invocations
  (model identifier and prompt, one entry per `generate_content` call),
  and the profile as it stands after the call.
-/

/-- A Python exception: whether it is a `ValueError`, its type name
(`type(e).__name__`) and its message (`str(e)`). -/
structure PyError where
  isValueError : Bool
  typeName : String
  msg : String
deriving DecidableEq, Repr

/-- The profile object read by the planner (`user_profile`).  Stored codes
are `Option`s; `*_display` is the label the corresponding
`get_*_display()` accessor would return. -/
structure UserProfile where
  gender : Option String
  gender_display : String
  age : Option Int
  height_cm : Option Int
  weight_kg : Option Int
  fitness_level : Option String
  fitness_level_display : String
  primary_goal_choice : Option String
  primary_goal_choice_display : String
deriving DecidableEq, Repr

/-- The external environment of one call: the configuration value
`GEMINI_API_KEY` (`none` when unset), the outcome of
`genai.GenerativeModel(name)` per model identifier, and the outcome of
`model.generate_content(prompt)` per model identifier and prompt. -/
structure World where
  apiKey : Option String
  construct : String → Except PyError Unit
  gen : String → String → Except PyError String

/-- `isPrefixL pat s` is true iff `pat` is a prefix of `s` (over char lists). -/
def isPrefixL : List Char → List Char → Bool
  | [], _ => true
  | _ :: _, [] => false
  | a :: as, b :: bs => a == b && isPrefixL as bs

/-- `hasSubL pat s`: `pat` occurs as a contiguous sublist of `s`
(the semantics of Python's `pat in s` on strings). -/
def hasSubL : List Char → List Char → Bool
  | pat, [] => pat.isEmpty
  | pat, b :: bs => isPrefixL pat (b :: bs) || hasSubL pat bs

def strContainsS (s pat : String) : Bool := hasSubL pat.data s.data

def strStartsS (s pat : String) : Bool := isPrefixL pat.data s.data

/-- Truthiness of a numeric profile field, line 34/35/36:
`user_profile.age if user_profile.age else 25` — `none` and `0` are falsy. -/
def deriveInt (v : Option Int) (dflt : Int) : Int :=
  match v with
  | none => dflt
  | some n => if n == 0 then dflt else n

/-- Truthiness of a string-coded profile field, lines 33/37/38:
`user_profile.get_x_display() if user_profile.x else dflt` —
`none` and `""` are falsy; when truthy the display label is used. -/
def deriveStr (code : Option String) (display : String) (dflt : String) : String :=
  match code with
  | none => dflt
  | some s => if s == "" then dflt else display

/-- Goal sentence for the "Muscle"/"Gain" branch (line 42). -/
def hypertrophySentence : String :=
  "Build lean muscle mass with a focus on hypertrophy, aiming to gain 1-2 kg of muscle."

/-- Goal sentence for the "Fat"/"Loss" branch (line 44). -/
def fatLossSentence : String :=
  "Lose body fat while preserving as much muscle as possible, aiming to lose 2-3 kg of fat."

/-- Goal sentence for the default branch (line 46). -/
def genericSentence : String :=
  "Improve overall fitness and health."

/-- Goal classification, lines 41-46 (`"Muscle" in s or "Gain" in s`, etc.). -/
def detailedGoal (g : String) : String :=
  if strContainsS g "Muscle" || strContainsS g "Gain" then hypertrophySentence
  else if strContainsS g "Fat" || strContainsS g "Loss" then fatLossSentence
  else genericSentence

/-- The default training-history block substituted for an empty summary,
lines 50-53 of the source (leading and trailing newline included, as in the
triple-quoted Python literal). -/
def defaultHistorySummary : String :=
  "\n* **Workout Frequency:** Based on your fitness level, we recommend starting with 3-4 times per week.\n* **Workout Types:** A balanced mix of strength training and cardio.\n"

/-- Fixed prompt text before the first interpolated field (lines 57-59). -/
def promptHeader : String :=
  "\nYou are an expert AI personal trainer and nutritionist named FitTrack AI. Your task is to create a comprehensive, personalized, and actionable 4-week training and diet plan based on the user's detailed profile and recent activity. The plan should be scientific, safe, and tailored to help the user achieve their goals.\n\n### User Profile"

/-- Fixed prompt text between the interpolated goal and the history summary
(line 67). -/
def historyHeader : String :=
  "\n\n### Recent Training History (Summary of the last month)\n"

/-- Fixed prompt text after the history summary (lines 70-89). -/
def promptTask : String :=
  "\n\n### Your Task: Generate the 4-Week Plan\n\nBased on all the information provided, generate a detailed 4-week plan.\n\n**1. The 4-Week Training Plan:**\n* **Structure:** Create a weekly split that balances intensity and recovery, for example, a Push/Pull/Legs or an Upper/Lower split.\n* **Progressive Overload:** The plan must incorporate the principle of progressive overload. Show how the user can increase weight, reps, or intensity from Week 1 to Week 4.\n* **Clarity:** For each training day, provide specific exercises (e.g., Bench Press, Barbell Squats, Lat Pulldowns), including the number of sets and repetitions (e.g., 3 sets of 8-12 reps).\n* **Cardio:** Integrate 1-2 cardio sessions per week, specifying the type (e.g., LISS - Low-Intensity Steady State, or HIIT) and duration.\n* **Rest:** Explicitly schedule at least two rest days per week.\n* **Format:** Present the weekly schedule in a clear, easy-to-read table format for each of the 4 weeks.\n\n**2. The 4-Week Diet Plan:**\n* **Caloric & Macro Targets:** First, calculate and state the recommended daily calorie intake and macronutrient split (Protein, Carbs, Fat in grams) for the user's goal.\n* **Nutritional Principles:** Provide 3-5 key nutritional guidelines for the user to follow (e.g., prioritize protein, choose complex carbs, stay hydrated).\n* **Sample Meal Ideas:** Do not create a rigid daily meal plan. Instead, provide a list of healthy and easy-to-prepare sample meal ideas for Breakfast, Lunch, Dinner, and Snacks. This gives the user flexibility.\n* **Integration:** The diet plan should directly support the energy demands of the training plan.\n\nPlease generate the complete, detailed plan now.\n"

/-- The f-string of lines 56-89 with its six interpolation holes and the
history hole; each hole is grouped with the fixed text immediately before
it (and the unit suffix after it, for height and weight). -/
def mkPrompt (g a h w l goal hist : String) : String :=
  promptHeader
    ++ ("\n* **Gender:** " ++ g)
    ++ ("\n* **Age:** " ++ a)
    ++ ("\n* **Height:** " ++ (h ++ " cm"))
    ++ ("\n* **Weight:** " ++ (w ++ " kg"))
    ++ ("\n* **Fitness Level:** " ++ l)
    ++ ("\n* **Primary Goal:** " ++ goal)
    ++ (historyHeader ++ hist)
    ++ promptTask

/-- Steps 2-5 of the function (lines 33-89): field derivation, goal
classification, history defaulting and prompt assembly. -/
def promptOf (p : UserProfile) (training_history_summary : String) : String :=
  mkPrompt
    (deriveStr p.gender p.gender_display "Not specified")
    (toString (deriveInt p.age 25))
    (toString (deriveInt p.height_cm 170))
    (toString (deriveInt p.weight_kg 70))
    (deriveStr p.fitness_level p.fitness_level_display "Beginner")
    (detailedGoal (deriveStr p.primary_goal_choice p.primary_goal_choice_display "General Fitness"))
    (if training_history_summary == "" then defaultHistorySummary else training_history_summary)

/-- The `except ValueError` handler's return value (line 106). -/
def configErrorMsg (m : String) : String :=
  "Configuration Error: " ++ m ++ "\n\nPlease check:\n1. Create a .env file in the project root\n2. Add: GEMINI_API_KEY=your_api_key_here\n3. Get your API key from: https://makersuite.google.com/app/apikey"

/-- The `except Exception` handler's return value (lines 109-110). -/
def genErrorMsg (tyName m : String) : String :=
  "Error generating plan (" ++ tyName ++ "): " ++ m ++ "\n\nPlease check:\n1. Your internet connection\n2. Your Gemini API key is valid\n3. You have API quota remaining"

/-- Dispatch of a raised exception to the two outer handlers (lines 104-110):
`except ValueError` first, then `except Exception`. -/
def handleCaught (e : PyError) : String :=
  if e.isValueError then configErrorMsg e.msg else genErrorMsg e.typeName e.msg

/-- The `ValueError` raised at line 28 when the key is missing or empty. -/
def missingKeyError : PyError :=
  ⟨true, "ValueError", "GEMINI_API_KEY not found in .env file. Please set your Gemini API key."⟩

/-- Model selection with fallback (lines 93-97): construct
`gemini-2.5-flash`; on any exception construct `gemini-1.5-flash`; an
exception from the fallback construction propagates. -/
def selectModel (w : World) : Except PyError String :=
  match w.construct "gemini-2.5-flash" with
  | .ok _ => .ok "gemini-2.5-flash"
  | .error _ =>
    match w.construct "gemini-1.5-flash" with
    | .ok _ => .ok "gemini-1.5-flash"
    | .error e => .error e

/-- Result of one embedded call: the returned text, the log of
`generate_content` invocations (model identifier, prompt), and the profile
as it stands when the call returns. -/
structure RunResult where
  text : String
  genCalls : List (String × String)
  profileOut : UserProfile
deriving Repr

/-- State-passing embedding of `generate_fitness_plan_from_profile`
(lines 24-110).  `genai.configure` performs no generation call and is not
modelled as fallible; every Python exception reaching the outer `try` is a
`PyError` routed through `handleCaught`. -/
def generateRun (w : World) (user_profile : UserProfile)
    (training_history_summary : String) : RunResult :=
  match w.apiKey with
  | none => ⟨handleCaught missingKeyError, [], user_profile⟩
  | some k =>
    if k == "" then ⟨handleCaught missingKeyError, [], user_profile⟩
    else
      match selectModel w with
      | .error e => ⟨handleCaught e, [], user_profile⟩
      | .ok m =>
        match w.gen m (promptOf user_profile training_history_summary) with
        | .ok t => ⟨t, [(m, promptOf user_profile training_history_summary)], user_profile⟩
        | .error e =>
          ⟨handleCaught e, [(m, promptOf user_profile training_history_summary)], user_profile⟩

/-- The function under specification: the text returned to the caller. -/
def generate_fitness_plan_from_profile (w : World) (user_profile : UserProfile)
    (training_history_summary : String) : String :=
  (generateRun w user_profile training_history_summary).text

/-- A profile with every field unset, used for concrete witnesses. -/
def emptyProfile : UserProfile :=
  ⟨none, "", none, none, none, none, "", none, ""⟩

/-- A profile with every field set to a falsy-but-present value (empty codes
and zeros), used for concrete witnesses. -/
def zeroProfile : UserProfile :=
  ⟨some "", "Mystery", some 0, some 0, some 0, some "", "Elite", some "", "Weird Goal"⟩

/-- The concrete scenario profile of the spec's final testable property:
Male, 30, 180 cm, 80 kg, Intermediate, goal displaying "Fat Loss". -/
def scenarioProfile : UserProfile :=
  ⟨some "M", "Male", some 30, some 180, some 80, some "INT", "Intermediate", some "FL", "Fat Loss"⟩

/-- A world with no API key configured, used for concrete witnesses. -/
def worldNoKey : World :=
  ⟨none, fun _ => .ok (), fun _ _ => .ok "PLAN TEXT"⟩

/-- A world where everything succeeds and generation returns "PLAN TEXT". -/
def worldOk : World :=
  ⟨some "k1", fun _ => .ok (), fun _ _ => .ok "PLAN TEXT"⟩

/-- A world where constructing the primary model fails and the fallback
model constructs and generates successfully. -/
def worldFallback : World :=
  ⟨some "k1",
   fun m => if m == "gemini-2.5-flash" then .error ⟨false, "NotFound", "no such model"⟩ else .ok (),
   fun _ _ => .ok "PLAN TEXT"⟩

/-- A world where the primary model constructs but its generation call fails
with a (non-ValueError) provider error. -/
def worldGenFail : World :=
  ⟨some "k1", fun _ => .ok (),
   fun _ _ => .error ⟨false, "ConnectionError", "network unreachable"⟩⟩

/-! ### Substring lemmas -/

theorem isPrefixL_self_append (l t : List Char) : isPrefixL l (l ++ t) = true := by
  induction l with
  | nil => rfl
  | cons a as ih => simp [isPrefixL, ih]

theorem isPrefixL_append_right (pat s t : List Char) (h : isPrefixL pat s = true) :
    isPrefixL pat (s ++ t) = true := by
  induction pat generalizing s with
  | nil => rfl
  | cons p ps ih =>
    cases s with
    | nil => simp [isPrefixL] at h
    | cons b bs =>
      simp only [isPrefixL, Bool.and_eq_true] at h
      simp only [List.cons_append, isPrefixL, Bool.and_eq_true]
      exact ⟨h.1, ih bs h.2⟩

theorem hasSubL_nil_pat (s : List Char) : hasSubL [] s = true := by
  cases s with
  | nil => rfl
  | cons b bs => simp [hasSubL, isPrefixL]

theorem hasSubL_self_append (pat t : List Char) : hasSubL pat (pat ++ t) = true := by
  cases pat with
  | nil => simpa using hasSubL_nil_pat t
  | cons p ps =>
    simp only [List.cons_append, hasSubL, Bool.or_eq_true]
    exact Or.inl (by simpa [List.cons_append] using isPrefixL_self_append (p :: ps) t)

theorem hasSubL_cons (pat : List Char) (b : Char) (bs : List Char)
    (h : hasSubL pat bs = true) : hasSubL pat (b :: bs) = true := by
  simp [hasSubL, h]

theorem hasSubL_append_left (a pat s : List Char) (h : hasSubL pat s = true) :
    hasSubL pat (a ++ s) = true := by
  induction a with
  | nil => simpa using h
  | cons x xs ih => simpa using hasSubL_cons pat x (xs ++ s) ih

theorem hasSubL_append_right (pat s t : List Char) (h : hasSubL pat s = true) :
    hasSubL pat (s ++ t) = true := by
  induction s with
  | nil =>
    have hp : pat = [] := by
      cases pat with
      | nil => rfl
      | cons p ps => simp [hasSubL, List.isEmpty] at h
    subst hp
    exact hasSubL_nil_pat t
  | cons b bs ih =>
    simp only [hasSubL, Bool.or_eq_true] at h
    rcases h with h | h
    · simp only [List.cons_append, hasSubL, Bool.or_eq_true]
      exact Or.inl (by simpa [List.cons_append] using isPrefixL_append_right pat (b :: bs) t h)
    · simp only [List.cons_append, hasSubL, Bool.or_eq_true]
      exact Or.inr (ih h)

theorem string_data_append (a b : String) : (a ++ b).data = a.data ++ b.data := rfl

theorem strContainsS_self (s : String) : strContainsS s s = true := by
  unfold strContainsS
  simpa using hasSubL_self_append s.data []

theorem strContainsS_append_right (a s pat : String) (h : strContainsS s pat = true) :
    strContainsS (a ++ s) pat = true := by
  unfold strContainsS at h ⊢
  rw [string_data_append]
  exact hasSubL_append_left a.data pat.data s.data h

theorem strContainsS_append_left (s t pat : String) (h : strContainsS s pat = true) :
    strContainsS (s ++ t) pat = true := by
  unfold strContainsS at h ⊢
  rw [string_data_append]
  exact hasSubL_append_right pat.data s.data t.data h

theorem strStartsS_append (s t pat : String) (h : strStartsS s pat = true) :
    strStartsS (s ++ t) pat = true := by
  unfold strStartsS at h ⊢
  rw [string_data_append]
  exact isPrefixL_append_right pat.data s.data t.data h

/-! ### Containment in the assembled prompt, one lemma per interpolation hole -/

theorem mkPrompt_contains_gender (g a h w l goal hist pat : String)
    (hp : strContainsS ("\n* **Gender:** " ++ g) pat = true) :
    strContainsS (mkPrompt g a h w l goal hist) pat = true := by
  unfold mkPrompt
  apply strContainsS_append_left
  apply strContainsS_append_left
  apply strContainsS_append_left
  apply strContainsS_append_left
  apply strContainsS_append_left
  apply strContainsS_append_left
  apply strContainsS_append_left
  exact strContainsS_append_right _ _ _ hp

theorem mkPrompt_contains_age (g a h w l goal hist pat : String)
    (hp : strContainsS ("\n* **Age:** " ++ a) pat = true) :
    strContainsS (mkPrompt g a h w l goal hist) pat = true := by
  unfold mkPrompt
  apply strContainsS_append_left
  apply strContainsS_append_left
  apply strContainsS_append_left
  apply strContainsS_append_left
  apply strContainsS_append_left
  apply strContainsS_append_left
  exact strContainsS_append_right _ _ _ hp

theorem mkPrompt_contains_height (g a h w l goal hist pat : String)
    (hp : strContainsS ("\n* **Height:** " ++ (h ++ " cm")) pat = true) :
    strContainsS (mkPrompt g a h w l goal hist) pat = true := by
  unfold mkPrompt
  apply strContainsS_append_left
  apply strContainsS_append_left
  apply strContainsS_append_left
  apply strContainsS_append_left
  apply strContainsS_append_left
  exact strContainsS_append_right _ _ _ hp

theorem mkPrompt_contains_weight (g a h w l goal hist pat : String)
    (hp : strContainsS ("\n* **Weight:** " ++ (w ++ " kg")) pat = true) :
    strContainsS (mkPrompt g a h w l goal hist) pat = true := by
  unfold mkPrompt
  apply strContainsS_append_left
  apply strContainsS_append_left
  apply strContainsS_append_left
  apply strContainsS_append_left
  exact strContainsS_append_right _ _ _ hp

theorem mkPrompt_contains_level (g a h w l goal hist pat : String)
    (hp : strContainsS ("\n* **Fitness Level:** " ++ l) pat = true) :
    strContainsS (mkPrompt g a h w l goal hist) pat = true := by
  unfold mkPrompt
  apply strContainsS_append_left
  apply strContainsS_append_left
  apply strContainsS_append_left
  exact strContainsS_append_right _ _ _ hp

theorem mkPrompt_contains_goal (g a h w l goal hist pat : String)
    (hp : strContainsS ("\n* **Primary Goal:** " ++ goal) pat = true) :
    strContainsS (mkPrompt g a h w l goal hist) pat = true := by
  unfold mkPrompt
  apply strContainsS_append_left
  apply strContainsS_append_left
  exact strContainsS_append_right _ _ _ hp

theorem mkPrompt_contains_history (g a h w l goal hist pat : String)
    (hp : strContainsS (historyHeader ++ hist) pat = true) :
    strContainsS (mkPrompt g a h w l goal hist) pat = true := by
  unfold mkPrompt
  apply strContainsS_append_left
  exact strContainsS_append_right _ _ _ hp

/-! ### Shape lemmas for the two error messages -/

theorem configErrorMsg_starts (m : String) :
    strStartsS (configErrorMsg m) "Configuration Error" = true := by
  unfold configErrorMsg
  apply strStartsS_append
  apply strStartsS_append
  decide

theorem configErrorMsg_contains_msg (m : String) :
    strContainsS (configErrorMsg m) m = true := by
  unfold configErrorMsg
  apply strContainsS_append_left
  exact strContainsS_append_right _ _ _ (strContainsS_self m)

theorem configErrorMsg_contains_tail (m pat : String)
    (h : strContainsS "\n\nPlease check:\n1. Create a .env file in the project root\n2. Add: GEMINI_API_KEY=your_api_key_here\n3. Get your API key from: https://makersuite.google.com/app/apikey" pat = true) :
    strContainsS (configErrorMsg m) pat = true := by
  unfold configErrorMsg
  exact strContainsS_append_right _ _ _ h

theorem genErrorMsg_starts (t m : String) :
    strStartsS (genErrorMsg t m) "Error generating plan (" = true := by
  unfold genErrorMsg
  apply strStartsS_append
  apply strStartsS_append
  apply strStartsS_append
  apply strStartsS_append
  decide

theorem genErrorMsg_contains_typeName (t m : String) :
    strContainsS (genErrorMsg t m) t = true := by
  unfold genErrorMsg
  apply strContainsS_append_left
  apply strContainsS_append_left
  apply strContainsS_append_left
  exact strContainsS_append_right _ _ _ (strContainsS_self t)

theorem genErrorMsg_contains_msg (t m : String) :
    strContainsS (genErrorMsg t m) m = true := by
  unfold genErrorMsg
  apply strContainsS_append_left
  exact strContainsS_append_right _ _ _ (strContainsS_self m)

theorem genErrorMsg_contains_tail (t m pat : String)
    (h : strContainsS "\n\nPlease check:\n1. Your internet connection\n2. Your Gemini API key is valid\n3. You have API quota remaining" pat = true) :
    strContainsS (genErrorMsg t m) pat = true := by
  unfold genErrorMsg
  exact strContainsS_append_right _ _ _ h

/-! ### Claims -/

/-- C1: goal classification is a case-sensitive substring match with
first-match priority: "Muscle"/"Gain" give the hypertrophy sentence;
otherwise "Fat"/"Loss" give the fat-loss sentence; otherwise the generic
sentence; in particular a goal containing both "Muscle" and "Fat" resolves
to the hypertrophy sentence. -/
theorem C1_goal_classification (g : String) :
    ((strContainsS g "Muscle" = true ∨ strContainsS g "Gain" = true) →
        detailedGoal g = hypertrophySentence)
  ∧ (strContainsS g "Muscle" = false → strContainsS g "Gain" = false →
      (strContainsS g "Fat" = true ∨ strContainsS g "Loss" = true) →
        detailedGoal g = fatLossSentence)
  ∧ (strContainsS g "Muscle" = false → strContainsS g "Gain" = false →
      strContainsS g "Fat" = false → strContainsS g "Loss" = false →
        detailedGoal g = genericSentence)
  ∧ (strContainsS g "Muscle" = true → strContainsS g "Fat" = true →
        detailedGoal g = hypertrophySentence) := by
  refine ⟨?_, ?_, ?_, ?_⟩
  · rintro (h | h) <;> simp [detailedGoal, h]
  · intro h1 h2 h3
    rcases h3 with h | h <;> simp [detailedGoal, h1, h2, h]
  · intro h1 h2 h3 h4
    simp [detailedGoal, h1, h2, h3, h4]
  · intro hm _
    simp [detailedGoal, hm]

/-- Witness for C1 at the goal string "Muscle and Fat". -/
theorem C1_goal_classification_witness :
    strContainsS "Muscle and Fat" "Muscle" = true ∧
      strContainsS "Muscle and Fat" "Fat" = true ∧
      detailedGoal "Muscle and Fat" = hypertrophySentence :=
  ⟨by decide, by decide,
    (C1_goal_classification "Muscle and Fat").2.2.2 (by decide) (by decide)⟩

theorem deriveStr_none (d dflt : String) : deriveStr none d dflt = dflt := rfl

theorem deriveInt_none (dflt : Int) : deriveInt none dflt = dflt := rfl

theorem deriveStr_empty (d dflt : String) : deriveStr (some "") d dflt = dflt := rfl

theorem deriveInt_zero (dflt : Int) : deriveInt (some 0) dflt = dflt := rfl

/-- C2: when a profile field is absent (`none`), the prompt contains the
fixed default for that field exactly: gender "Not specified", age 25,
height 170 cm, weight 70 kg, fitness level "Beginner"; an absent goal is
treated as "General Fitness", which classifies to the generic goal
sentence. -/
theorem C2_missing_field_defaults (p : UserProfile) (hist : String) :
    (p.gender = none →
        strContainsS (promptOf p hist) "Gender:** Not specified" = true)
  ∧ (p.age = none → strContainsS (promptOf p hist) "Age:** 25" = true)
  ∧ (p.height_cm = none →
        strContainsS (promptOf p hist) "Height:** 170 cm" = true)
  ∧ (p.weight_kg = none →
        strContainsS (promptOf p hist) "Weight:** 70 kg" = true)
  ∧ (p.fitness_level = none →
        strContainsS (promptOf p hist) "Fitness Level:** Beginner" = true)
  ∧ (p.primary_goal_choice = none →
        deriveStr p.primary_goal_choice p.primary_goal_choice_display
            "General Fitness" = "General Fitness"
      ∧ strContainsS (promptOf p hist)
            ("Primary Goal:** " ++ genericSentence) = true) := by
  refine ⟨?_, ?_, ?_, ?_, ?_, ?_⟩
  · intro h
    unfold promptOf
    apply mkPrompt_contains_gender
    rw [h, deriveStr_none]
    decide
  · intro h
    unfold promptOf
    apply mkPrompt_contains_age
    rw [h, deriveInt_none]
    decide
  · intro h
    unfold promptOf
    apply mkPrompt_contains_height
    rw [h, deriveInt_none]
    decide
  · intro h
    unfold promptOf
    apply mkPrompt_contains_weight
    rw [h, deriveInt_none]
    decide
  · intro h
    unfold promptOf
    apply mkPrompt_contains_level
    rw [h, deriveStr_none]
    decide
  · intro h
    refine ⟨by rw [h]; exact deriveStr_none _ _, ?_⟩
    unfold promptOf
    apply mkPrompt_contains_goal
    rw [h, deriveStr_none]
    decide

/-- Witness for C2 at the all-absent profile. -/
theorem C2_missing_field_defaults_witness :
    emptyProfile.age = none ∧
      strContainsS (promptOf emptyProfile "x") "Gender:** Not specified" = true ∧
      strContainsS (promptOf emptyProfile "x") "Age:** 25" = true ∧
      strContainsS (promptOf emptyProfile "x") "Height:** 170 cm" = true ∧
      strContainsS (promptOf emptyProfile "x") "Weight:** 70 kg" = true ∧
      strContainsS (promptOf emptyProfile "x") "Fitness Level:** Beginner" = true ∧
      strContainsS (promptOf emptyProfile "x")
        ("Primary Goal:** " ++ genericSentence) = true := by
  have hthm := C2_missing_field_defaults emptyProfile "x"
  exact ⟨rfl, hthm.1 rfl, hthm.2.1 rfl, hthm.2.2.1 rfl, hthm.2.2.2.1 rfl,
    hthm.2.2.2.2.1 rfl, (hthm.2.2.2.2.2 rfl).2⟩

/-- C3: an empty history summary is replaced by the fixed two-line default
history block, which then appears verbatim in the prompt; a non-empty
summary appears in the prompt unmodified. -/
theorem C3_history_passthrough (p : UserProfile) (hist : String) :
    (hist = "" →
        strContainsS (promptOf p hist) defaultHistorySummary = true
      ∧ ∃ pre, promptOf p hist =
          pre ++ (historyHeader ++ defaultHistorySummary) ++ promptTask)
  ∧ (hist ≠ "" →
        strContainsS (promptOf p hist) hist = true
      ∧ ∃ pre, promptOf p hist =
          pre ++ (historyHeader ++ hist) ++ promptTask) := by
  constructor
  · intro h
    subst h
    constructor
    · unfold promptOf
      apply mkPrompt_contains_history
      simp only [beq_self_eq_true, if_true]
      exact strContainsS_append_right _ _ _ (strContainsS_self _)
    · unfold promptOf mkPrompt
      simp only [beq_self_eq_true, if_true]
      exact ⟨_, rfl⟩
  · intro h
    have hb : (hist == "") = false := beq_eq_false_iff_ne.mpr h
    constructor
    · unfold promptOf
      apply mkPrompt_contains_history
      rw [hb]
      simp only [Bool.false_eq_true, if_false]
      exact strContainsS_append_right _ _ _ (strContainsS_self _)
    · unfold promptOf mkPrompt
      rw [hb]
      simp only [Bool.false_eq_true, if_false]
      exact ⟨_, rfl⟩

/-- Witness for C3: empty summary at the all-absent profile, and the
non-empty summary "HISTORY". -/
theorem C3_history_passthrough_witness :
    strContainsS (promptOf emptyProfile "") defaultHistorySummary = true ∧
      ("HISTORY" : String) ≠ "" ∧
      strContainsS (promptOf emptyProfile "HISTORY") "HISTORY" = true :=
  ⟨((C3_history_passthrough emptyProfile "").1 rfl).1, by decide,
    ((C3_history_passthrough emptyProfile "HISTORY").2 (by decide)).1⟩

/-- C4: when the GEMINI_API_KEY configuration value is absent, the result
starts with "Configuration Error", names the missing key, contains the
three remediation steps, and the generation service is never invoked
(the call log is empty). -/
theorem C4_missing_key (w : World) (p : UserProfile) (hist : String)
    (h : w.apiKey = none) :
    strStartsS (generate_fitness_plan_from_profile w p hist)
        "Configuration Error" = true
  ∧ strContainsS (generate_fitness_plan_from_profile w p hist)
        "GEMINI_API_KEY" = true
  ∧ strContainsS (generate_fitness_plan_from_profile w p hist)
        "1. Create a .env file in the project root" = true
  ∧ strContainsS (generate_fitness_plan_from_profile w p hist)
        "2. Add: GEMINI_API_KEY=your_api_key_here" = true
  ∧ strContainsS (generate_fitness_plan_from_profile w p hist)
        "3. Get your API key from: https://makersuite.google.com/app/apikey" = true
  ∧ (generateRun w p hist).genCalls = [] := by
  have htext : generate_fitness_plan_from_profile w p hist =
      handleCaught missingKeyError := by
    unfold generate_fitness_plan_from_profile generateRun
    rw [h]
  have hcalls : (generateRun w p hist).genCalls = [] := by
    unfold generateRun
    rw [h]
  rw [htext]
  exact ⟨by decide, by decide, by decide, by decide, by decide, hcalls⟩

/-- Witness for C4 at a concrete key-less world. -/
theorem C4_missing_key_witness :
    worldNoKey.apiKey = none ∧
      strStartsS (generate_fitness_plan_from_profile worldNoKey emptyProfile "")
        "Configuration Error" = true ∧
      (generateRun worldNoKey emptyProfile "").genCalls = [] := by
  have hthm := C4_missing_key worldNoKey emptyProfile "" rfl
  exact ⟨rfl, hthm.1, hthm.2.2.2.2.2⟩

/-- C5: any non-ValueError failure during model selection (both
constructions fail) or generation (the selected model's call fails) yields
an error string that contains the failure's type name and message plus the
three generic remediation bullet points. -/
theorem C5_generation_failure (w : World) (p : UserProfile) (hist : String)
    (k : String) (e : PyError)
    (hk : w.apiKey = some k) (hk2 : (k == "") = false)
    (hv : e.isValueError = false)
    (hfail :
      (∃ e1, w.construct "gemini-2.5-flash" = Except.error e1 ∧
          w.construct "gemini-1.5-flash" = Except.error e)
      ∨ (∃ m, selectModel w = Except.ok m ∧
          w.gen m (promptOf p hist) = Except.error e)) :
    generate_fitness_plan_from_profile w p hist = genErrorMsg e.typeName e.msg
  ∧ strContainsS (generate_fitness_plan_from_profile w p hist) e.typeName = true
  ∧ strContainsS (generate_fitness_plan_from_profile w p hist) e.msg = true
  ∧ strContainsS (generate_fitness_plan_from_profile w p hist)
        "1. Your internet connection" = true
  ∧ strContainsS (generate_fitness_plan_from_profile w p hist)
        "2. Your Gemini API key is valid" = true
  ∧ strContainsS (generate_fitness_plan_from_profile w p hist)
        "3. You have API quota remaining" = true := by
  have hnv : handleCaught e = genErrorMsg e.typeName e.msg := by
    unfold handleCaught
    rw [hv]
    simp only [Bool.false_eq_true, if_false]
  have heq : generate_fitness_plan_from_profile w p hist =
      genErrorMsg e.typeName e.msg := by
    unfold generate_fitness_plan_from_profile generateRun
    rw [hk]
    simp only [hk2, Bool.false_eq_true, if_false]
    cases hsel : selectModel w with
    | error e2 =>
      have he2 : e2 = e := by
        rcases hfail with ⟨e1, h1, h2⟩ | ⟨m, hm, hg⟩
        · have hse : selectModel w = Except.error e := by
            unfold selectModel
            rw [h1, h2]
          rw [hsel] at hse
          exact Except.error.inj hse
        · rw [hm] at hsel
          cases hsel
      subst he2
      exact hnv
    | ok m2 =>
      show (match w.gen m2 (promptOf p hist) with
        | Except.ok t =>
            (⟨t, [(m2, promptOf p hist)], p⟩ : RunResult)
        | Except.error e0 =>
            (⟨handleCaught e0, [(m2, promptOf p hist)], p⟩ : RunResult)).text =
          genErrorMsg e.typeName e.msg
      cases hgen : w.gen m2 (promptOf p hist) with
      | ok t =>
        exfalso
        rcases hfail with ⟨e1, h1, h2⟩ | ⟨m, hm, hg⟩
        · have hse : selectModel w = Except.error e := by
            unfold selectModel
            rw [h1, h2]
          rw [hsel] at hse
          cases hse
        · rw [hm] at hsel
          have hm2 : m = m2 := Except.ok.inj hsel
          subst hm2
          rw [hg] at hgen
          cases hgen
      | error e2 =>
        have he2 : e2 = e := by
          rcases hfail with ⟨e1, h1, h2⟩ | ⟨m, hm, hg⟩
          · have hse : selectModel w = Except.error e := by
              unfold selectModel
              rw [h1, h2]
            rw [hsel] at hse
            cases hse
          · rw [hm] at hsel
            have hm2 : m = m2 := Except.ok.inj hsel
            subst hm2
            rw [hg] at hgen
            exact (Except.error.inj hgen).symm
        subst he2
        exact hnv
  rw [heq]
  exact ⟨rfl, genErrorMsg_contains_typeName _ _, genErrorMsg_contains_msg _ _,
    genErrorMsg_contains_tail _ _ _ (by decide),
    genErrorMsg_contains_tail _ _ _ (by decide),
    genErrorMsg_contains_tail _ _ _ (by decide)⟩

/-- Witness for C5 at a world whose primary model constructs but whose
generation call raises a connection error. -/
theorem C5_generation_failure_witness :
    generate_fitness_plan_from_profile worldGenFail scenarioProfile "" =
        genErrorMsg "ConnectionError" "network unreachable" ∧
      strContainsS (generate_fitness_plan_from_profile worldGenFail scenarioProfile "")
        "ConnectionError" = true := by
  have hthm := C5_generation_failure worldGenFail scenarioProfile "" "k1"
    ⟨false, "ConnectionError", "network unreachable"⟩ rfl (by decide) rfl
    (Or.inr ⟨"gemini-2.5-flash", rfl, rfl⟩)
  exact ⟨hthm.1, hthm.2.1⟩

/-- C6: the fallback is asymmetric.  If constructing the primary model
fails, the secondary model is constructed and invoked with the prompt
(exactly one generation call, on the fallback model, returning its text on
success).  If the primary model constructs and its generation call fails,
exactly one generation call occurs — on the primary model — and the
failure is converted to an error string by the outer handlers; no fallback
to the secondary model happens. -/
theorem C6_fallback_asymmetry (w : World) (p : UserProfile) (hist : String)
    (k : String) (hk : w.apiKey = some k) (hk2 : (k == "") = false) :
    ((∃ e1, w.construct "gemini-2.5-flash" = Except.error e1) →
      w.construct "gemini-1.5-flash" = Except.ok () →
        (generateRun w p hist).genCalls = [("gemini-1.5-flash", promptOf p hist)]
      ∧ ∀ t, w.gen "gemini-1.5-flash" (promptOf p hist) = Except.ok t →
          generate_fitness_plan_from_profile w p hist = t)
  ∧ (w.construct "gemini-2.5-flash" = Except.ok () →
      ∀ e, w.gen "gemini-2.5-flash" (promptOf p hist) = Except.error e →
        (generateRun w p hist).genCalls = [("gemini-2.5-flash", promptOf p hist)]
      ∧ generate_fitness_plan_from_profile w p hist = handleCaught e) := by
  constructor
  · rintro ⟨e1, h1⟩ h2
    have hsel : selectModel w = Except.ok "gemini-1.5-flash" := by
      unfold selectModel
      rw [h1, h2]
    have hrun : generateRun w p hist =
        (match w.gen "gemini-1.5-flash" (promptOf p hist) with
          | Except.ok t =>
              (⟨t, [("gemini-1.5-flash", promptOf p hist)], p⟩ : RunResult)
          | Except.error e0 =>
              (⟨handleCaught e0, [("gemini-1.5-flash", promptOf p hist)], p⟩ : RunResult)) := by
      unfold generateRun
      rw [hk]
      simp only [hk2, Bool.false_eq_true, if_false]
      rw [hsel]
    refine ⟨?_, ?_⟩
    · rw [hrun]
      cases hgen : w.gen "gemini-1.5-flash" (promptOf p hist) <;> rfl
    · intro t ht
      unfold generate_fitness_plan_from_profile
      rw [hrun, ht]
  · intro h1 e hg
    have hsel : selectModel w = Except.ok "gemini-2.5-flash" := by
      unfold selectModel
      rw [h1]
    have hrun : generateRun w p hist =
        (match w.gen "gemini-2.5-flash" (promptOf p hist) with
          | Except.ok t =>
              (⟨t, [("gemini-2.5-flash", promptOf p hist)], p⟩ : RunResult)
          | Except.error e0 =>
              (⟨handleCaught e0, [("gemini-2.5-flash", promptOf p hist)], p⟩ : RunResult)) := by
      unfold generateRun
      rw [hk]
      simp only [hk2, Bool.false_eq_true, if_false]
      rw [hsel]
    refine ⟨?_, ?_⟩
    · rw [hrun, hg]
    · unfold generate_fitness_plan_from_profile
      rw [hrun, hg]

/-- Witness for C6: a world whose primary construction fails (fallback
model generates "PLAN TEXT") and a world whose primary generation call
fails with a connection error. -/
theorem C6_fallback_asymmetry_witness :
    (generateRun worldFallback emptyProfile "").genCalls =
        [("gemini-1.5-flash", promptOf emptyProfile "")] ∧
      generate_fitness_plan_from_profile worldFallback emptyProfile "" = "PLAN TEXT" ∧
      (generateRun worldGenFail emptyProfile "").genCalls =
        [("gemini-2.5-flash", promptOf emptyProfile "")] ∧
      generate_fitness_plan_from_profile worldGenFail emptyProfile "" =
        handleCaught ⟨false, "ConnectionError", "network unreachable"⟩ := by
  have h1 := (C6_fallback_asymmetry worldFallback emptyProfile "" "k1" rfl (by decide)).1
    ⟨⟨false, "NotFound", "no such model"⟩, rfl⟩ rfl
  have h2 := (C6_fallback_asymmetry worldGenFail emptyProfile "" "k1" rfl (by decide)).2
    rfl ⟨false, "ConnectionError", "network unreachable"⟩ rfl
  exact ⟨h1.1, h1.2 "PLAN TEXT" rfl, h2.1, h2.2⟩

/-- Every caught exception is rendered by one of the two handlers, each
with its distinctive text marker. -/
theorem handleCaught_cases (e : PyError) :
    (handleCaught e = configErrorMsg e.msg ∧
        strStartsS (handleCaught e) "Configuration Error" = true)
  ∨ (handleCaught e = genErrorMsg e.typeName e.msg ∧
        strStartsS (handleCaught e) "Error generating plan (" = true) := by
  cases hv : e.isValueError
  · have h : handleCaught e = genErrorMsg e.typeName e.msg := by
      unfold handleCaught
      rw [hv]
      rfl
    rw [h]
    exact Or.inr ⟨rfl, genErrorMsg_starts _ _⟩
  · have h : handleCaught e = configErrorMsg e.msg := by
      unfold handleCaught
      rw [hv]
      rfl
    rw [h]
    exact Or.inl ⟨rfl, configErrorMsg_starts _⟩

/-- The returned text is either a successful generation result or the
rendering of some caught exception. -/
theorem generateRun_text_cases (w : World) (p : UserProfile) (hist : String) :
    (∃ m t, w.gen m (promptOf p hist) = Except.ok t ∧
        (generateRun w p hist).text = t)
  ∨ (∃ e, (generateRun w p hist).text = handleCaught e) := by
  cases hk : w.apiKey with
  | none =>
    have ht : (generateRun w p hist).text = handleCaught missingKeyError := by
      unfold generateRun
      rw [hk]
    exact Or.inr ⟨missingKeyError, ht⟩
  | some k =>
    cases hke : (k == "") with
    | true =>
      have ht : (generateRun w p hist).text = handleCaught missingKeyError := by
        unfold generateRun
        rw [hk]
        simp only [hke, if_true]
      exact Or.inr ⟨missingKeyError, ht⟩
    | false =>
      cases hsel : selectModel w with
      | error e =>
        have ht : (generateRun w p hist).text = handleCaught e := by
          unfold generateRun
          rw [hk]
          simp only [hke, Bool.false_eq_true, if_false]
          rw [hsel]
        exact Or.inr ⟨e, ht⟩
      | ok m =>
        have hrun : generateRun w p hist =
            (match w.gen m (promptOf p hist) with
              | Except.ok t =>
                  (⟨t, [(m, promptOf p hist)], p⟩ : RunResult)
              | Except.error e0 =>
                  (⟨handleCaught e0, [(m, promptOf p hist)], p⟩ : RunResult)) := by
          unfold generateRun
          rw [hk]
          simp only [hke, Bool.false_eq_true, if_false]
          rw [hsel]
        cases hgen : w.gen m (promptOf p hist) with
        | ok t => exact Or.inl ⟨m, t, hgen, by rw [hrun, hgen]⟩
        | error e => exact Or.inr ⟨e, by rw [hrun, hgen]⟩

/-- C7: the function is total over all modelled external outcomes and
always returns a string: either the provider's text on a successful
generation call, or an error message starting with "Configuration Error",
or an error message starting with "Error generating plan (" — never a
propagated exception. -/
theorem C7_total_string_result (w : World) (p : UserProfile) (hist : String) :
    (∃ m t, w.gen m (promptOf p hist) = Except.ok t ∧
        generate_fitness_plan_from_profile w p hist = t)
  ∨ ((∃ m, generate_fitness_plan_from_profile w p hist = configErrorMsg m)
      ∧ strStartsS (generate_fitness_plan_from_profile w p hist)
          "Configuration Error" = true)
  ∨ ((∃ n mm, generate_fitness_plan_from_profile w p hist = genErrorMsg n mm)
      ∧ strStartsS (generate_fitness_plan_from_profile w p hist)
          "Error generating plan (" = true) := by
  unfold generate_fitness_plan_from_profile
  rcases generateRun_text_cases w p hist with ⟨m, t, hg, ht⟩ | ⟨e, ht⟩
  · exact Or.inl ⟨m, t, hg, ht⟩
  · rcases handleCaught_cases e with ⟨h1, h2⟩ | ⟨h1, h2⟩
    · refine Or.inr (Or.inl ⟨⟨e.msg, ?_⟩, ?_⟩)
      · rw [ht, h1]
      · rw [ht]
        exact h2
    · refine Or.inr (Or.inr ⟨⟨e.typeName, e.msg, ?_⟩, ?_⟩)
      · rw [ht, h1]
      · rw [ht]
        exact h2

/-- C8: for the scenario profile (Male, 30, 180 cm, 80 kg, Intermediate,
goal displaying "Fat Loss") with empty history, the prompt contains
"Age:** 30", "Height:** 180 cm", "Weight:** 80 kg", the fat-loss goal
sentence and the default history block; and a successful generation call
on the primary model returns the provider's text unmodified. -/
theorem C8_scenario (w : World) (k t : String)
    (hk : w.apiKey = some k) (hk2 : (k == "") = false)
    (hc : w.construct "gemini-2.5-flash" = Except.ok ())
    (hg : w.gen "gemini-2.5-flash" (promptOf scenarioProfile "") = Except.ok t) :
    strContainsS (promptOf scenarioProfile "") "Age:** 30" = true
  ∧ strContainsS (promptOf scenarioProfile "") "Height:** 180 cm" = true
  ∧ strContainsS (promptOf scenarioProfile "") "Weight:** 80 kg" = true
  ∧ strContainsS (promptOf scenarioProfile "")
        ("Primary Goal:** " ++ fatLossSentence) = true
  ∧ strContainsS (promptOf scenarioProfile "") defaultHistorySummary = true
  ∧ generate_fitness_plan_from_profile w scenarioProfile "" = t := by
  refine ⟨?_, ?_, ?_, ?_, ?_, ?_⟩
  · unfold promptOf
    apply mkPrompt_contains_age
    decide
  · unfold promptOf
    apply mkPrompt_contains_height
    decide
  · unfold promptOf
    apply mkPrompt_contains_weight
    decide
  · unfold promptOf
    apply mkPrompt_contains_goal
    decide
  · unfold promptOf
    apply mkPrompt_contains_history
    simp only [beq_self_eq_true, if_true]
    exact strContainsS_append_right _ _ _ (strContainsS_self _)
  · have hsel : selectModel w = Except.ok "gemini-2.5-flash" := by
      unfold selectModel
      rw [hc]
    have hrun : generateRun w scenarioProfile "" =
        (match w.gen "gemini-2.5-flash" (promptOf scenarioProfile "") with
          | Except.ok t0 =>
              (⟨t0, [("gemini-2.5-flash", promptOf scenarioProfile "")], scenarioProfile⟩ : RunResult)
          | Except.error e0 =>
              (⟨handleCaught e0, [("gemini-2.5-flash", promptOf scenarioProfile "")], scenarioProfile⟩ : RunResult)) := by
      unfold generateRun
      rw [hk]
      simp only [hk2, Bool.false_eq_true, if_false]
      rw [hsel]
    unfold generate_fitness_plan_from_profile
    rw [hrun, hg]

/-- Witness for C8 at a concrete fully-successful world. -/
theorem C8_scenario_witness :
    worldOk.apiKey = some "k1" ∧
      generate_fitness_plan_from_profile worldOk scenarioProfile "" = "PLAN TEXT" ∧
      strContainsS (promptOf scenarioProfile "") "Age:** 30" = true := by
  have hthm := C8_scenario worldOk "k1" "PLAN TEXT" rfl (by decide) rfl rfl
  exact ⟨rfl, hthm.2.2.2.2.2, hthm.1⟩

/-- C9: the profile is never mutated: the profile that comes out of any
call is the profile that went in, for every world, profile and history —
in particular none of the substituted defaults is written back. -/
theorem C9_profile_immutable (w : World) (p : UserProfile) (hist : String) :
    (generateRun w p hist).profileOut = p := by
  cases hk : w.apiKey with
  | none =>
    unfold generateRun
    rw [hk]
  | some k =>
    cases hke : (k == "") with
    | true =>
      unfold generateRun
      rw [hk]
      simp only [hke, if_true]
    | false =>
      cases hsel : selectModel w with
      | error e =>
        unfold generateRun
        rw [hk]
        simp only [hke, Bool.false_eq_true, if_false]
        rw [hsel]
      | ok m =>
        have hrun : generateRun w p hist =
            (match w.gen m (promptOf p hist) with
              | Except.ok t =>
                  (⟨t, [(m, promptOf p hist)], p⟩ : RunResult)
              | Except.error e0 =>
                  (⟨handleCaught e0, [(m, promptOf p hist)], p⟩ : RunResult)) := by
          unfold generateRun
          rw [hk]
          simp only [hke, Bool.false_eq_true, if_false]
          rw [hsel]
        rw [hrun]
        cases hgen : w.gen m (promptOf p hist) <;> rfl

/-- C10: defaulting is decided by falsiness, not absence: a numeric field
present but equal to 0, or a string-coded field present but empty, is
replaced by its fixed default exactly as if it were absent — the derived
value equals the default and the prompt shows the default in that slot. -/
theorem C10_falsy_defaults (p : UserProfile) (hist : String) :
    (p.gender = some "" →
        deriveStr p.gender p.gender_display "Not specified" = "Not specified"
      ∧ strContainsS (promptOf p hist) "Gender:** Not specified" = true)
  ∧ (p.age = some 0 →
        deriveInt p.age 25 = 25
      ∧ strContainsS (promptOf p hist) "Age:** 25" = true)
  ∧ (p.height_cm = some 0 →
        deriveInt p.height_cm 170 = 170
      ∧ strContainsS (promptOf p hist) "Height:** 170 cm" = true)
  ∧ (p.weight_kg = some 0 →
        deriveInt p.weight_kg 70 = 70
      ∧ strContainsS (promptOf p hist) "Weight:** 70 kg" = true)
  ∧ (p.fitness_level = some "" →
        deriveStr p.fitness_level p.fitness_level_display "Beginner" = "Beginner"
      ∧ strContainsS (promptOf p hist) "Fitness Level:** Beginner" = true)
  ∧ (p.primary_goal_choice = some "" →
        deriveStr p.primary_goal_choice p.primary_goal_choice_display
            "General Fitness" = "General Fitness"
      ∧ strContainsS (promptOf p hist)
            ("Primary Goal:** " ++ genericSentence) = true) := by
  refine ⟨?_, ?_, ?_, ?_, ?_, ?_⟩
  · intro h
    refine ⟨by rw [h]; exact deriveStr_empty _ _, ?_⟩
    unfold promptOf
    apply mkPrompt_contains_gender
    rw [h, deriveStr_empty]
    decide
  · intro h
    refine ⟨by rw [h]; exact deriveInt_zero _, ?_⟩
    unfold promptOf
    apply mkPrompt_contains_age
    rw [h, deriveInt_zero]
    decide
  · intro h
    refine ⟨by rw [h]; exact deriveInt_zero _, ?_⟩
    unfold promptOf
    apply mkPrompt_contains_height
    rw [h, deriveInt_zero]
    decide
  · intro h
    refine ⟨by rw [h]; exact deriveInt_zero _, ?_⟩
    unfold promptOf
    apply mkPrompt_contains_weight
    rw [h, deriveInt_zero]
    decide
  · intro h
    refine ⟨by rw [h]; exact deriveStr_empty _ _, ?_⟩
    unfold promptOf
    apply mkPrompt_contains_level
    rw [h, deriveStr_empty]
    decide
  · intro h
    refine ⟨by rw [h]; exact deriveStr_empty _ _, ?_⟩
    unfold promptOf
    apply mkPrompt_contains_goal
    rw [h, deriveStr_empty]
    decide

/-- Witness for C10 at the all-falsy-present profile. -/
theorem C10_falsy_defaults_witness :
    zeroProfile.age = some 0 ∧
      strContainsS (promptOf zeroProfile "x") "Gender:** Not specified" = true ∧
      strContainsS (promptOf zeroProfile "x") "Age:** 25" = true ∧
      strContainsS (promptOf zeroProfile "x") "Height:** 170 cm" = true ∧
      strContainsS (promptOf zeroProfile "x") "Weight:** 70 kg" = true ∧
      strContainsS (promptOf zeroProfile "x") "Fitness Level:** Beginner" = true ∧
      strContainsS (promptOf zeroProfile "x")
        ("Primary Goal:** " ++ genericSentence) = true := by
  have hthm := C10_falsy_defaults zeroProfile "x"
  exact ⟨rfl, (hthm.1 rfl).2, (hthm.2.1 rfl).2, (hthm.2.2.1 rfl).2,
    (hthm.2.2.2.1 rfl).2, (hthm.2.2.2.2.1 rfl).2, (hthm.2.2.2.2.2 rfl).2⟩
